import Mathlib

/-!
Shallow embedding of inttrack.py, a helper that wraps numeric values so that
arithmetic on them is evaluated numerically and simultaneously recorded as an
expression tree, which can be rendered to a parenthesized infix string.

Modelling conventions, each checked against src/inttrack.py:
- Numeric values (Python int, float, Decimal) are modelled as exact rationals.
  Python float and Decimal arithmetic round in general; every concrete input
  used below is exactly representable and its operations are exact, so the
  rational model agrees with the Python result on those inputs.
- Construction of an IntTrack coerces its value with int(...), which truncates
  a fractional value toward zero; truncQ models that truncation.
- The namedtuples abs, neg, add, div, mod, mul, sub of the source become the
  constructors of the inductive type Node, with an extra constructor lit for
  raw numeric leaf operands.
- A tracked value (IntTrack or DecimalTrack instance) is a kind tag, a stored
  numeric value and an optional operations tree.  When binary_op or unary_op
  records an operand whose operations attribute is None, the source stores the
  tracked object itself in the node; that object compares and renders exactly
  as its numeric value, so the model stores the value as a lit leaf.
- Arithmetic that can raise (division and modulo by zero) is modelled in
  Except; the error constructors mirror ZeroDivisionError and the decimal
  module InvalidOperation signal.
-/

namespace Inttrack

/-- Expression tree node: the namedtuples of inttrack.py lines 19-26, plus a
leaf constructor for raw numeric operands. -/
inductive Node where
  | lit (v : Rat)
  | abs (lhs : Node)
  | neg (lhs : Node)
  | add (lhs rhs : Node)
  | div (lhs rhs : Node)
  | mod (lhs rhs : Node)
  | mul (lhs rhs : Node)
  | sub (lhs rhs : Node)
deriving DecidableEq, Repr

/-- The two numeric kinds of the module: IntTrack wraps int, DecimalTrack
wraps Decimal. -/
inductive NKind where
  | int
  | dec
deriving DecidableEq, Repr

/-- A tracked value: a numeric value of one of the two kinds together with an
optional recorded operations tree (inttrack.py lines 99-103 and 125-130). -/
structure Tracked where
  kind : NKind
  value : Rat
  operations : Option Node
deriving DecidableEq, Repr

/-- Python int(x) on a numeric x: truncation toward zero. -/
def truncQ (q : Rat) : Int := if 0 ≤ q then ⌊q⌋ else ⌈q⌉

/-- IntTrack.__new__ (lines 100-103): the stored value passes through
int.__new__, so a fractional value is truncated toward zero. -/
def IntTrack (value : Rat) (operations : Option Node) : Tracked :=
  ⟨NKind.int, ((truncQ value : Int) : Rat), operations⟩

/-- DecimalTrack.__new__ (lines 127-130): the value is stored exactly. -/
def DecimalTrack (value : Rat) (operations : Option Node) : Tracked :=
  ⟨NKind.dec, value, operations⟩

/-- track (lines 41-44): isinstance(number, Decimal) selects DecimalTrack,
anything else selects IntTrack.  The isinstance test is modelled by the
isDec flag of the literal. -/
def track (isDec : Bool) (number : Rat) : Tracked :=
  if isDec then DecimalTrack number none else IntTrack number none

/-- An operand of an operator method: either a plain literal (int, float or
Decimal, the flag recording whether it is a Decimal instance) or a tracked
value. -/
inductive Operand where
  | lit (isDec : Bool) (v : Rat)
  | tracked (t : Tracked)
deriving DecidableEq, Repr

/-- Numeric value of an operand. -/
def opVal : Operand → Rat
  | .lit _ v => v
  | .tracked t => t.value

/-- The operand normalization of unary_op and binary_op (lines 59-63 and
70-78): when the operand has a non-None operations attribute that tree is
used, otherwise the operand itself is recorded; a plain literal or a tracked
value whose tree is None behaves as its numeric value, stored as a lit leaf. -/
def opTree : Operand → Node
  | .lit _ v => .lit v
  | .tracked t => t.operations.getD (.lit t.value)

/-- The coercion type_(operand) applied before the arithmetic (lines 65 and
80): int(x) truncates toward zero, Decimal(x) keeps the exact value. -/
def coerce : NKind → Rat → Rat
  | .int, q => ((truncQ q : Int) : Rat)
  | .dec, q => q

/-- Errors raised by the underlying arithmetic: ZeroDivisionError from int
arithmetic, InvalidOperation from the decimal module. -/
inductive ArithError where
  | zeroDivision
  | invalidOperation
deriving DecidableEq, Repr

/-- operator.neg. -/
def pyNeg (a : Rat) : Rat := -a

/-- operator.abs. -/
def pyAbs (a : Rat) : Rat := if a < 0 then -a else a

/-- operator.add, total, in Except for uniformity with the fallible ops. -/
def pyAdd (a b : Rat) : Except ArithError Rat := .ok (a + b)

/-- operator.sub. -/
def pySub (a b : Rat) : Except ArithError Rat := .ok (a - b)

/-- operator.mul. -/
def pyMul (a b : Rat) : Except ArithError Rat := .ok (a * b)

/-- operator.truediv: raises on a zero divisor, otherwise the exact quotient.
Python int truediv produces a float and Decimal truediv rounds to context
precision; on the concrete inputs used below the quotient is handled
identically by the exact model (only its truncation is observed). -/
def pyTruediv (a b : Rat) : Except ArithError Rat :=
  if b = 0 then .error .zeroDivision else .ok (a / b)

/-- Floor of a rational, used by Python int modulo. -/
def floorQ (q : Rat) : Int := ⌊q⌋

/-- operator.mod on int operands: the result a - b * floor(a / b) has the
sign of the divisor. -/
def intMod (a b : Rat) : Except ArithError Rat :=
  if b = 0 then .error .zeroDivision
  else .ok (a - b * ((floorQ (a / b) : Int) : Rat))

/-- operator.mod on Decimal operands: the result a - b * trunc(a / b) has the
sign of the dividend; division by zero signals InvalidOperation. -/
def decMod (a b : Rat) : Except ArithError Rat :=
  if b = 0 then .error .invalidOperation
  else .ok (a - b * ((truncQ (a / b) : Int) : Rat))

/-- unary_op (lines 59-66): coerce the operand with type_, apply the
operator, and wrap the result in an IntTrack (the constructor is hardcoded
on line 66 for both kinds) whose tree applies the node constructor to the
normalized operand. -/
def unary_op (type_ : NKind) (op : Rat → Rat) (operation : Node → Node)
    (lhs : Operand) : Tracked :=
  IntTrack (op (coerce type_ (opVal lhs))) (some (operation (opTree lhs)))

/-- binary_op (lines 69-81): coerce both operands with type_, apply the
operator (propagating any arithmetic error), and wrap the result in an
IntTrack (hardcoded on line 81 for both kinds) whose tree applies the node
constructor to the two normalized operands in order. -/
def binary_op (type_ : NKind) (op : Rat → Rat → Except ArithError Rat)
    (operation : Node → Node → Node) (lhs rhs : Operand) :
    Except ArithError Tracked :=
  match op (coerce type_ (opVal lhs)) (coerce type_ (opVal rhs)) with
  | .error e => .error e
  | .ok result => .ok (IntTrack result (some (operation (opTree lhs) (opTree rhs))))

/-- binary_rop (lines 84-85): the reflected-operator helper receives the
tracked value first (as rhs) and the other operand second (as lhs) and swaps
them back before delegating to binary_op. -/
def binary_rop (type_ : NKind) (op : Rat → Rat → Except ArithError Rat)
    (operation : Node → Node → Node) (rhs lhs : Operand) :
    Except ArithError Tracked :=
  binary_op type_ op operation lhs rhs

/-- IntTrack.__abs__ (line 105). -/
def IntTrack.absOp (lhs : Operand) : Tracked := unary_op .int pyAbs Node.abs lhs

/-- IntTrack.__neg__ (line 106). -/
def IntTrack.negOp (lhs : Operand) : Tracked := unary_op .int pyNeg Node.neg lhs

/-- IntTrack.__add__ (line 108). -/
def IntTrack.add : Operand → Operand → Except ArithError Tracked :=
  binary_op .int pyAdd Node.add

/-- IntTrack.__mod__ (line 109). -/
def IntTrack.mod : Operand → Operand → Except ArithError Tracked :=
  binary_op .int intMod Node.mod

/-- IntTrack.__mul__ (line 110). -/
def IntTrack.mul : Operand → Operand → Except ArithError Tracked :=
  binary_op .int pyMul Node.mul

/-- IntTrack.__sub__ (line 111). -/
def IntTrack.sub : Operand → Operand → Except ArithError Tracked :=
  binary_op .int pySub Node.sub

/-- IntTrack.__truediv__ (line 112). -/
def IntTrack.truediv : Operand → Operand → Except ArithError Tracked :=
  binary_op .int pyTruediv Node.div

/-- IntTrack.__radd__ (line 114); the first argument is self. -/
def IntTrack.radd : Operand → Operand → Except ArithError Tracked :=
  binary_rop .int pyAdd Node.add

/-- IntTrack.__rmod__ (line 115). -/
def IntTrack.rmod : Operand → Operand → Except ArithError Tracked :=
  binary_rop .int intMod Node.mod

/-- IntTrack.__rmul__ (line 116). -/
def IntTrack.rmul : Operand → Operand → Except ArithError Tracked :=
  binary_rop .int pyMul Node.mul

/-- IntTrack.__rsub__ (line 117). -/
def IntTrack.rsub : Operand → Operand → Except ArithError Tracked :=
  binary_rop .int pySub Node.sub

/-- IntTrack.__rtruediv__ (line 118). -/
def IntTrack.rtruediv : Operand → Operand → Except ArithError Tracked :=
  binary_rop .int pyTruediv Node.div

/-- DecimalTrack.__abs__ (line 132). -/
def DecimalTrack.absOp (lhs : Operand) : Tracked := unary_op .dec pyAbs Node.abs lhs

/-- DecimalTrack.__neg__ (line 133). -/
def DecimalTrack.negOp (lhs : Operand) : Tracked := unary_op .dec pyNeg Node.neg lhs

/-- DecimalTrack.__add__ (line 135). -/
def DecimalTrack.add : Operand → Operand → Except ArithError Tracked :=
  binary_op .dec pyAdd Node.add

/-- DecimalTrack.__mod__ (line 136). -/
def DecimalTrack.mod : Operand → Operand → Except ArithError Tracked :=
  binary_op .dec decMod Node.mod

/-- DecimalTrack.__mul__ (line 137). -/
def DecimalTrack.mul : Operand → Operand → Except ArithError Tracked :=
  binary_op .dec pyMul Node.mul

/-- DecimalTrack.__sub__ (line 138). -/
def DecimalTrack.sub : Operand → Operand → Except ArithError Tracked :=
  binary_op .dec pySub Node.sub

/-- DecimalTrack.__truediv__ (line 139). -/
def DecimalTrack.truediv : Operand → Operand → Except ArithError Tracked :=
  binary_op .dec pyTruediv Node.div

/-- DecimalTrack.__radd__ (line 141). -/
def DecimalTrack.radd : Operand → Operand → Except ArithError Tracked :=
  binary_rop .dec pyAdd Node.add

/-- DecimalTrack.__rmod__ (line 142). -/
def DecimalTrack.rmod : Operand → Operand → Except ArithError Tracked :=
  binary_rop .dec decMod Node.mod

/-- DecimalTrack.__rmul__ (line 143). -/
def DecimalTrack.rmul : Operand → Operand → Except ArithError Tracked :=
  binary_rop .dec pyMul Node.mul

/-- DecimalTrack.__rsub__ (line 144). -/
def DecimalTrack.rsub : Operand → Operand → Except ArithError Tracked :=
  binary_rop .dec pySub Node.sub

/-- DecimalTrack.__rtruediv__ (line 145): the source binds binary_op here,
not binary_rop, so the first argument (self, the right-hand side of the
original expression) is passed straight through as lhs. -/
def DecimalTrack.rtruediv : Operand → Operand → Except ArithError Tracked :=
  binary_op .dec pyTruediv Node.div

/-- Default string form of a literal, str(x) of the source: integers print
without a denominator. -/
def pyStr (q : Rat) : String :=
  if q.den = 1 then toString q.num else toString q

/-- expression (lines 88-96): a non-tuple input is a literal and is rendered
through the callback when one is given, else through str; a node renders its
operands recursively, substitutes them into the op_format template of its
kind (lines 29-38), and wraps the combination in parentheses. -/
def expression : Node → Option (Rat → String) → String
  | .lit v, callback =>
      match callback with
      | some f => f v
      | none => pyStr v
  | .abs x, callback => "(abs(" ++ expression x callback ++ "))"
  | .neg x, callback => "(-" ++ expression x callback ++ ")"
  | .add a b, callback => "(" ++ expression a callback ++ " + " ++ expression b callback ++ ")"
  | .div a b, callback => "(" ++ expression a callback ++ " / " ++ expression b callback ++ ")"
  | .mod a b, callback => "(" ++ expression a callback ++ " % " ++ expression b callback ++ ")"
  | .mul a b, callback => "(" ++ expression a callback ++ " * " ++ expression b callback ++ ")"
  | .sub a b, callback => "(" ++ expression a callback ++ " - " ++ expression b callback ++ ")"

/-- Rendering the same tree twice in sequence and observing the tree
afterwards; the pair of strings and the final tree are what a caller of
expression can observe. -/
def renderTwice (operations : Node) (callback : Option (Rat → String)) :
    String × String × Node :=
  (expression operations callback, expression operations callback, operations)

/-- Node kind tags, for stating which constructor a node was built from. -/
inductive OpKind where
  | lit
  | abs
  | neg
  | add
  | div
  | mod
  | mul
  | sub
deriving DecidableEq, Repr

/-- The kind tag of a node. -/
def nodeKind : Node → OpKind
  | .lit _ => .lit
  | .abs _ => .abs
  | .neg _ => .neg
  | .add _ _ => .add
  | .div _ _ => .div
  | .mod _ _ => .mod
  | .mul _ _ => .mul
  | .sub _ _ => .sub

/-- True for a raw numeric leaf; a Python number is not a tuple. -/
def isLit : Node → Bool
  | .lit _ => true
  | _ => false

/-- The operand fields of a node, in order; a literal has none. -/
def operandsOf : Node → List Node
  | .lit _ => []
  | .abs x => [x]
  | .neg x => [x]
  | .add a b => [a, b]
  | .div a b => [a, b]
  | .mod a b => [a, b]
  | .mul a b => [a, b]
  | .sub a b => [a, b]

/-- Python equality on recorded trees.  The namedtuples of the source
inherit tuple equality: two tuples are equal when they have the same length
and elementwise equal members, the namedtuple class is never consulted; a
number equals a number with the same numeric value and never equals a
tuple. -/
def pyEqNode : Node → Node → Bool
  | .lit a, .lit b => decide (a = b)
  | .abs x, .abs y
  | .abs x, .neg y
  | .neg x, .abs y
  | .neg x, .neg y => pyEqNode x y
  | .add a b, .add c d
  | .add a b, .div c d
  | .add a b, .mod c d
  | .add a b, .mul c d
  | .add a b, .sub c d
  | .div a b, .add c d
  | .div a b, .div c d
  | .div a b, .mod c d
  | .div a b, .mul c d
  | .div a b, .sub c d
  | .mod a b, .add c d
  | .mod a b, .div c d
  | .mod a b, .mod c d
  | .mod a b, .mul c d
  | .mod a b, .sub c d
  | .mul a b, .add c d
  | .mul a b, .div c d
  | .mul a b, .mod c d
  | .mul a b, .mul c d
  | .mul a b, .sub c d
  | .sub a b, .add c d
  | .sub a b, .div c d
  | .sub a b, .mod c d
  | .sub a b, .mul c d
  | .sub a b, .sub c d => pyEqNode a c && pyEqNode b d
  | _, _ => false

/-- Python equality on tracked values: IntTrack and DecimalTrack define no
__eq__ of their own, so comparison is the inherited numeric equality of the
stored value; the operations attribute is never consulted. -/
def pyEqTracked (a b : Tracked) : Bool := decide (a.value = b.value)

/-- Exact numeric evaluation of a recorded tree, the value the tree
describes; division and modulo of an empty denominator are undefined. -/
def evalNode : Node → Option Rat
  | .lit v => some v
  | .abs x => (evalNode x).map pyAbs
  | .neg x => (evalNode x).map pyNeg
  | .add a b =>
      match evalNode a, evalNode b with
      | some x, some y => some (x + y)
      | _, _ => none
  | .div a b =>
      match evalNode a, evalNode b with
      | some x, some y => if y = 0 then none else some (x / y)
      | _, _ => none
  | .mod a b =>
      match evalNode a, evalNode b with
      | some x, some y => if y = 0 then none else some (x - y * ((floorQ (x / y) : Int) : Rat))
      | _, _ => none
  | .mul a b =>
      match evalNode a, evalNode b with
      | some x, some y => some (x * y)
      | _, _ => none
  | .sub a b =>
      match evalNode a, evalNode b with
      | some x, some y => some (x - y)
      | _, _ => none

theorem truncQ_intCast (n : Int) : truncQ (n : Rat) = n := by
  unfold truncQ
  split <;> simp

/-- C1 counterexample: the claim as stated fails on the code.  Dividing the
integer-kind tracked 7 by the integer-kind tracked 3 produces a tracked value
whose numeric value is 2, because line 81 wraps the true-division result in
an IntTrack and int.__new__ truncates it; 2 is not the precise quotient 7/3.
The recorded tree is still div(7, 3). -/
theorem int_truediv_not_exact_cex :
    IntTrack.truediv (.tracked (track false 7)) (.tracked (track false 3))
      = .ok (Tracked.mk .int 2 (some (Node.div (.lit 7) (.lit 3)))) ∧
    (2 : Rat) ≠ 7 / 3 := by
  constructor
  · simp [IntTrack.truediv, binary_op, track, IntTrack, opVal, opTree, coerce, pyTruediv,
      truncQ]
    norm_num
  · norm_num

/-- C1 amended: dividing two exact-integer-kind tracked values computes the
true (non-truncated) quotient with operator.truediv, but the result is then
stored through the IntTrack constructor, which truncates it toward zero; the
recorded tree still holds the original operands in order.  For track(7) / 3
the numeric value is therefore 2, not 7/3. -/
theorem int_truediv_truncates (a b : Int) (h : b ≠ 0) :
    IntTrack.truediv (.tracked (track false (a : Rat))) (.tracked (track false (b : Rat)))
      = .ok (IntTrack ((a : Rat) / (b : Rat))
          (some (Node.div (.lit (a : Rat)) (.lit (b : Rat))))) := by
  have hb : ((b : Rat)) ≠ 0 := Int.cast_ne_zero.mpr h
  simp [IntTrack.truediv, binary_op, track, IntTrack, opVal, opTree, coerce, pyTruediv,
    truncQ_intCast, hb]

/-- C1 witness: the amended theorem instantiated at track(7) / track(3). -/
theorem int_truediv_truncates_witness :
    (3 : Int) ≠ 0 ∧
    IntTrack.truediv (.tracked (track false ((7 : Int) : Rat)))
        (.tracked (track false ((3 : Int) : Rat)))
      = .ok (IntTrack (((7 : Int) : Rat) / ((3 : Int) : Rat))
          (some (Node.div (.lit ((7 : Int) : Rat)) (.lit ((3 : Int) : Rat))))) :=
  ⟨by decide, int_truediv_truncates 7 3 (by decide)⟩

/-- C6: an error from the underlying arithmetic propagates out of binary_op
unchanged; the helper has no handler of its own and produces no tracked
result in that case. -/
theorem binary_op_propagates_errors
    (type_ : NKind) (op : Rat → Rat → Except ArithError Rat)
    (operation : Node → Node → Node) (lhs rhs : Operand) (e : ArithError)
    (h : op (coerce type_ (opVal lhs)) (coerce type_ (opVal rhs)) = .error e) :
    binary_op type_ op operation lhs rhs = .error e := by
  unfold binary_op
  rw [h]

/-- C6 witness: track(7) / 0 raises the division-by-zero error of the
underlying arithmetic, unchanged. -/
theorem binary_op_propagates_errors_witness :
    pyTruediv (coerce .int (opVal (.tracked (track false 7))))
        (coerce .int (opVal (.lit false 0))) = .error .zeroDivision ∧
    binary_op .int pyTruediv Node.div (.tracked (track false 7)) (.lit false 0)
      = .error .zeroDivision := by
  have h : pyTruediv (coerce .int (opVal (.tracked (track false 7))))
      (coerce .int (opVal (.lit false 0))) = .error .zeroDivision := by
    norm_num [pyTruediv, coerce, opVal, track, IntTrack, truncQ]
  exact ⟨h, binary_op_propagates_errors .int pyTruediv Node.div
    (.tracked (track false 7)) (.lit false 0) .zeroDivision h⟩

/-- C9: the factory track attaches no recorded tree (the operations attribute
of the fresh wrapper is None) and dispatches on the kind of the literal:
DecimalTrack exactly when the literal is a Decimal, IntTrack otherwise. -/
theorem track_no_tree_and_kind_dispatch :
    ∀ (isDec : Bool) (v : Rat),
      (track isDec v).operations = none ∧
      (track isDec v).kind = (if isDec then NKind.dec else NKind.int) := by
  intro d v
  cases d <;> simp [track, IntTrack, DecimalTrack]

/-- C8: rendering is deterministic and side-effect-free; rendering the same
tree twice in sequence yields identical strings and leaves the tree equal to
its value before rendering.  The source renderer only reads the tree (a
namedtuple, immutable) and builds fresh strings, so the embedding is a pure
function. -/
theorem expression_deterministic_pure :
    ∀ (operations : Node) (callback : Option (Rat → String)),
      (renderTwice operations callback).1 = (renderTwice operations callback).2.1 ∧
      (renderTwice operations callback).2.2 = operations := by
  intro o c
  exact ⟨rfl, rfl⟩

/-- C2: operand order under reflected operators.  IntTrack.__rtruediv__ goes
through binary_rop and swaps the arguments back, so 3 / track(7) records
div(3, 7) with the true left-hand side on the left; but DecimalTrack's
__rtruediv__ is bound to binary_op instead of binary_rop (line 145), so for
3 / track(Decimal(7)) the node records div(7, 3) with the operands swapped
(and, the result being wrapped in an IntTrack, the numeric value is the
truncated 2 rather than 3/7).  The two trees differ, so the order-preservation
claim fails for the decimal-kind reflected division. -/
theorem decimal_rtruediv_operand_order_bug :
    DecimalTrack.rtruediv (.tracked (DecimalTrack 7 none)) (.lit false 3)
      = .ok (Tracked.mk .int 2 (some (Node.div (.lit 7) (.lit 3)))) ∧
    IntTrack.rtruediv (.tracked (track false 7)) (.lit false 3)
      = .ok (Tracked.mk .int 0 (some (Node.div (.lit 3) (.lit 7)))) ∧
    Node.div (.lit 7) (.lit 3) ≠ Node.div (.lit 3) (.lit 7) := by
  refine ⟨?_, ?_, ?_⟩
  · simp [DecimalTrack.rtruediv, binary_op, DecimalTrack, IntTrack, opVal, opTree, coerce,
      pyTruediv, truncQ]
    norm_num
  · simp [IntTrack.rtruediv, binary_rop, binary_op, track, IntTrack, opVal, opTree, coerce,
      pyTruediv, truncQ]
    norm_num
  · simp only [ne_eq, Node.div.injEq, Node.lit.injEq, not_and]
    intro h
    norm_num at h

/-- C3: decimal-kind arithmetic does not stay decimal-kind.  unary_op and
binary_op hardcode the IntTrack constructor (lines 66 and 81), so every
operation on a DecimalTrack returns an integer-kind tracked value whose value
has been truncated by int.__new__: track(Decimal(1.5)) + Decimal(0.25) yields
the integer-kind value 1, not the decimal-kind value 1.75, and even negating
a DecimalTrack yields an integer-kind result. -/
theorem decimal_ops_return_int_kind_bug :
    DecimalTrack.add (.tracked (track true (3 / 2))) (.lit true (1 / 4))
      = .ok (Tracked.mk .int 1 (some (Node.add (.lit (3 / 2)) (.lit (1 / 4))))) ∧
    NKind.int ≠ NKind.dec ∧
    (1 : Rat) ≠ 3 / 2 + 1 / 4 ∧
    (DecimalTrack.negOp (.tracked (track true 5))).kind = NKind.int := by
  refine ⟨?_, by decide, by norm_num, ?_⟩
  · simp [DecimalTrack.add, binary_op, track, DecimalTrack, IntTrack, opVal, opTree, coerce,
      pyAdd, truncQ]
    norm_num
  · simp [DecimalTrack.negOp, unary_op, IntTrack]

/-- C4: each operand position of a recorded node holds the operand's existing
tree when the operand is a tracked value carrying one, and otherwise the
operand's numeric value as a leaf (a bare literal, or a tracked value whose
operations attribute is None, which the source records as the object itself
and which behaves as its numeric value); binary_op combines the two normalized
operands with the node constructor, and composing operations therefore
combines subtrees: (track(5) * 2 - 3).operations equals sub(mul(5, 2), 3). -/
theorem binary_op_records_operand_trees :
    (∀ (k : NKind) (v : Rat) (n : Node), opTree (.tracked (Tracked.mk k v (some n))) = n) ∧
    (∀ (k : NKind) (v : Rat), opTree (.tracked (Tracked.mk k v none)) = .lit v) ∧
    (∀ (d : Bool) (v : Rat), opTree (.lit d v) = .lit v) ∧
    (∀ (type_ : NKind) (op : Rat → Rat → Except ArithError Rat)
        (operation : Node → Node → Node) (lhs rhs : Operand),
      binary_op type_ op operation lhs rhs
        = (op (coerce type_ (opVal lhs)) (coerce type_ (opVal rhs))).map
            (fun result => IntTrack result (some (operation (opTree lhs) (opTree rhs))))) ∧
    IntTrack.mul (.tracked (track false 5)) (.lit false 2)
      = .ok (Tracked.mk .int 10 (some (Node.mul (.lit 5) (.lit 2)))) ∧
    IntTrack.sub (.tracked (Tracked.mk .int 10 (some (Node.mul (.lit 5) (.lit 2)))))
        (.lit false 3)
      = .ok (Tracked.mk .int 7 (some (Node.sub (Node.mul (.lit 5) (.lit 2)) (.lit 3)))) := by
  refine ⟨fun k v n => rfl, fun k v => rfl, fun d v => rfl, ?_, ?_, ?_⟩
  · intro type_ op operation lhs rhs
    unfold binary_op
    cases op (coerce type_ (opVal lhs)) (coerce type_ (opVal rhs)) <;> rfl
  · simp [IntTrack.mul, binary_op, track, IntTrack, opVal, opTree, coerce, pyMul, truncQ]
    norm_num
  · simp [IntTrack.sub, binary_op, IntTrack, opVal, opTree, coerce, pySub, truncQ]

/-- C10: integer-kind operations coerce both operands to int (truncating
toward zero) before evaluating the arithmetic, while the recorded node keeps
each operand's original uncoerced value; for track(5) + 2.5 the numeric
result is 7 while the recorded tree add(5, 2.5) describes the value 7.5. -/
theorem int_ops_coerce_but_record_original :
    (∀ (op : Rat → Rat → Except ArithError Rat) (operation : Node → Node → Node)
        (lhs rhs : Operand),
      binary_op .int op operation lhs rhs
        = (op ((truncQ (opVal lhs) : Int) : Rat) ((truncQ (opVal rhs) : Int) : Rat)).map
            (fun result => IntTrack result (some (operation (opTree lhs) (opTree rhs))))) ∧
    (∀ (op : Rat → Rat) (operation : Node → Node) (lhs : Operand),
      unary_op .int op operation lhs
        = IntTrack (op ((truncQ (opVal lhs) : Int) : Rat)) (some (operation (opTree lhs)))) ∧
    IntTrack.add (.tracked (track false 5)) (.lit false (5 / 2))
      = .ok (Tracked.mk .int 7 (some (Node.add (.lit 5) (.lit (5 / 2))))) ∧
    evalNode (Node.add (.lit 5) (.lit (5 / 2))) = some (15 / 2) ∧
    (7 : Rat) ≠ 15 / 2 := by
  refine ⟨?_, fun op operation lhs => rfl, ?_, ?_, by norm_num⟩
  · intro op operation lhs rhs
    unfold binary_op coerce
    cases op ((truncQ (opVal lhs) : Int) : Rat) ((truncQ (opVal rhs) : Int) : Rat) <;> rfl
  · simp [IntTrack.add, binary_op, track, IntTrack, opVal, opTree, coerce, pyAdd, truncQ]
    norm_num
  · simp [evalNode]
    norm_num

/-- C5: the renderer maps a literal through the caller-supplied formatting
function when one is provided and through the default string form otherwise;
a node renders each operand recursively, combines them with the fixed
per-kind template (abs(x), -x, x + y, x - y, x * y, x / y, x % y), and wraps
the combination in parentheses, at every composed level, with no
operator-precedence elision; in particular the tree sub(mul(5, 2), 3)
renders as the fully parenthesized ((5 * 2) - 3). -/
theorem expression_renders_templates :
    (∀ (v : Rat) (f : Rat → String), expression (Node.lit v) (some f) = f v) ∧
    (∀ v : Rat, expression (Node.lit v) none = pyStr v) ∧
    (∀ (x : Node) (cb : Option (Rat → String)),
      expression (Node.abs x) cb = "(abs(" ++ expression x cb ++ "))") ∧
    (∀ (x : Node) (cb : Option (Rat → String)),
      expression (Node.neg x) cb = "(-" ++ expression x cb ++ ")") ∧
    (∀ (a b : Node) (cb : Option (Rat → String)),
      expression (Node.add a b) cb = "(" ++ expression a cb ++ " + " ++ expression b cb ++ ")") ∧
    (∀ (a b : Node) (cb : Option (Rat → String)),
      expression (Node.sub a b) cb = "(" ++ expression a cb ++ " - " ++ expression b cb ++ ")") ∧
    (∀ (a b : Node) (cb : Option (Rat → String)),
      expression (Node.mul a b) cb = "(" ++ expression a cb ++ " * " ++ expression b cb ++ ")") ∧
    (∀ (a b : Node) (cb : Option (Rat → String)),
      expression (Node.div a b) cb = "(" ++ expression a cb ++ " / " ++ expression b cb ++ ")") ∧
    (∀ (a b : Node) (cb : Option (Rat → String)),
      expression (Node.mod a b) cb = "(" ++ expression a cb ++ " % " ++ expression b cb ++ ")") ∧
    expression (Node.sub (Node.mul (.lit 5) (.lit 2)) (.lit 3)) none = "((5 * 2) - 3)" := by
  exact ⟨fun v f => rfl, fun v => rfl, fun x cb => rfl, fun x cb => rfl, fun a b cb => rfl,
    fun a b cb => rfl, fun a b cb => rfl, fun a b cb => rfl, fun a b cb => rfl, rfl⟩

/-- C7 counterexample: the claim that two nodes are equal only when they have
the same kind fails on the code.  The namedtuples inherit plain tuple
equality, which never consults the class, so the add node add(5, 3) and the
mul node mul(5, 3) compare equal even though their kinds differ. -/
theorem node_eq_ignores_kind_cex :
    pyEqNode (Node.add (.lit 5) (.lit 3)) (Node.mul (.lit 5) (.lit 3)) = true ∧
    nodeKind (Node.add (.lit 5) (.lit 3)) ≠ nodeKind (Node.mul (.lit 5) (.lit 3)) := by
  constructor
  · show (decide ((5 : Rat) = 5) && decide ((3 : Rat) = 3)) = true
    simp
  · decide

/-- C7 amended: node equality is plain tuple equality, blind to the node
kind: two literals compare by numeric value, a literal never equals a node,
nodes with different operand counts are unequal, and nodes with the same
operand count — whatever their kinds — compare by recursively equal operands;
tracked-value equality is numeric equality of the stored values and never
consults the attached tree. -/
theorem node_eq_tuple_characterization :
    (∀ a b : Rat, pyEqNode (.lit a) (.lit b) = decide (a = b)) ∧
    (∀ n m : Node, isLit n ≠ isLit m → pyEqNode n m = false) ∧
    (∀ n m : Node, isLit n = false → isLit m = false →
      (operandsOf n).length ≠ (operandsOf m).length → pyEqNode n m = false) ∧
    (∀ n m x y : Node, operandsOf n = [x] → operandsOf m = [y] →
      pyEqNode n m = pyEqNode x y) ∧
    (∀ n m a b c d : Node, operandsOf n = [a, b] → operandsOf m = [c, d] →
      pyEqNode n m = (pyEqNode a c && pyEqNode b d)) ∧
    (∀ t₁ t₂ : Tracked, pyEqTracked t₁ t₂ = decide (t₁.value = t₂.value)) := by
  refine ⟨fun a b => rfl, ?_, ?_, ?_, ?_, fun t₁ t₂ => rfl⟩
  · intro n m h
    cases n <;> cases m <;> first | rfl | simp_all [isLit]
  · intro n m hn hm hl
    cases n <;> cases m <;> first | rfl | simp_all [isLit, operandsOf]
  · intro n m x y hn hm
    cases n <;> cases m <;> simp_all [operandsOf] <;> rfl
  · intro n m a b c d hn hm
    cases n <;> cases m <;> simp_all [operandsOf] <;> rfl

/-- C7 witness: the characterization applied to the unary nodes abs(1) and
neg(2), whose comparison reduces to comparing the operands 1 and 2. -/
theorem node_eq_tuple_characterization_witness :
    operandsOf (Node.abs (.lit 1)) = [Node.lit 1] ∧
    operandsOf (Node.neg (.lit 2)) = [Node.lit 2] ∧
    pyEqNode (Node.abs (.lit 1)) (Node.neg (.lit 2)) = pyEqNode (.lit 1) (.lit 2) :=
  ⟨rfl, rfl, node_eq_tuple_characterization.2.2.2.1 (Node.abs (.lit 1)) (Node.neg (.lit 2))
    (Node.lit 1) (Node.lit 2) rfl rfl⟩

end Inttrack
